import Mathlib

/-!
Verification development for the CMRP boundary-geometry engine
(`CMRP.extension/lib`): the boundary repair engine (`CMRP.py`), the
daylight orientation resolver and zone constructor (`CMRP_Daylight.py`),
and the shaft polygon offset engine (`CMRP_Shafts.py`).

The Python code runs against the Revit host API.  The embedding models the
host geometry kernel explicitly:

* points (`XYZ`) have exact rational coordinates;
* a host `Curve` (always a bound line here) carries its two endpoints plus
  the host-maintained attributes the code reads: `Length`,
  `GetEndParameter(0)` and `GetEndParameter(1)`, and the `IsBound` flag.
  For a line built by `Line.CreateBound(a, b)` the host sets the parameter
  range to `[0, distance a b]`; the start parameter is `0`.  The code only
  ever multiplies `Length` by that start parameter, so the (irrational)
  euclidean length never influences any computed value; the embedding
  threads an arbitrary host length function `lenF` and proves its theorems
  for every such function;
* `Curve.Intersect` on two bound lines returns `Overlap` together with the
  intersection point exactly when the lines cross in a single point with
  both parameters inside `[0, 1]` (endpoint contact included, collinear
  overlap excluded), which is the behaviour the repair and orientation
  code relies on;
* transcendental host operations (`Transform.CreateRotation`,
  `XYZ.Normalize`, extrusion volumes, unit conversion) are taken as
  explicit function parameters, so every theorem holds for every host
  implementation of them.
-/

namespace CMRP

/-- Revit `XYZ`: a point or vector with three coordinates.  Coordinates are
modelled as exact rationals. -/
structure XYZ where
  x : ℚ
  y : ℚ
  z : ℚ
deriving DecidableEq, Repr

instance : Inhabited XYZ := ⟨⟨0, 0, 0⟩⟩

/-- Componentwise vector addition (Revit `XYZ.Add`). -/
def XYZ.add (a b : XYZ) : XYZ := ⟨a.x + b.x, a.y + b.y, a.z + b.z⟩

/-- Componentwise vector subtraction (Revit `XYZ.Subtract`). -/
def XYZ.sub (a b : XYZ) : XYZ := ⟨a.x - b.x, a.y - b.y, a.z - b.z⟩

/-- Componentwise vector negation (Revit `XYZ.Negate`). -/
def XYZ.neg (a : XYZ) : XYZ := ⟨-a.x, -a.y, -a.z⟩

instance : Add XYZ := ⟨XYZ.add⟩

instance : Sub XYZ := ⟨XYZ.sub⟩

instance : Neg XYZ := ⟨XYZ.neg⟩

/-- Scalar multiple of an `XYZ` vector (Revit `XYZ.Multiply` / `v * q`). -/
def XYZ.scale (q : ℚ) (v : XYZ) : XYZ := ⟨q * v.x, q * v.y, q * v.z⟩

/-- Cross product with the basis vector `XYZ.BasisZ = (0,0,1)`:
`v ⨯ (0,0,1) = (v.y, -v.x, 0)`. -/
def XYZ.crossBasisZ (v : XYZ) : XYZ := ⟨v.y, -v.x, 0⟩

/-- Revit bound line (`Line`).  `s`/`e` are `GetEndPoint(0)` and
`GetEndPoint(1)`; `length`, `endParam0` and `endParam1` are the
host-maintained `Length`, `GetEndParameter(0)` and `GetEndParameter(1)`
attributes, and `isBound` is `IsBound`.  Curves handed over by the host
(room boundary segments) can carry arbitrary parameter values, because the
underlying unbounded line's origin is host-chosen. -/
structure Curve where
  s : XYZ
  e : XYZ
  length : ℚ
  endParam0 : ℚ
  endParam1 : ℚ
  isBound : Bool
deriving DecidableEq, Repr

instance : Inhabited Curve := ⟨⟨⟨0, 0, 0⟩, ⟨0, 0, 0⟩, 0, 0, 0, true⟩⟩

/-- Revit `Line.CreateBound a b`.  The host sets the parameter range of the
created line to `[0, distance a b]`; the start parameter is `0`.  The host
length function `lenF` is threaded explicitly (in Revit it is the
euclidean distance, an irrational number in general); no computation in
this development depends on its values because the code only multiplies
`length` by the zero start parameter. -/
def createBound (lenF : XYZ → XYZ → ℚ) (a b : XYZ) : Curve :=
  ⟨a, b, lenF a b, 0, lenF a b, true⟩

/-- Host model for `Curve.Intersect` on two bound lines, restricted to the
`SetComparisonResult.Overlap` outcome the code tests for: the unique
crossing point when the XY projections are not parallel, both parameters
lie in `[0, 1]` (endpoint contact included) and the Z coordinates agree at
the crossing.  Parallel or collinear configurations yield `none` (Revit
reports those as `Disjoint`/`Equal`/`Subset`, never `Overlap`). -/
def curve_intersect (c1 c2 : Curve) : Option XYZ :=
  let d1 := c1.e - c1.s
  let d2 := c2.e - c2.s
  let den := d1.x * d2.y - d1.y * d2.x
  if den = 0 then none
  else
    let r := c2.s - c1.s
    let t := (r.x * d2.y - r.y * d2.x) / den
    let u := (d1.y * r.x - d1.x * r.y) / den
    if 0 ≤ t ∧ t ≤ 1 ∧ 0 ≤ u ∧ u ≤ 1 ∧ c1.s.z + t * d1.z = c2.s.z + u * d2.z then
      some ⟨c1.s.x + t * d1.x, c1.s.y + t * d1.y, c1.s.z + t * d1.z⟩
    else none

/-- Translation of `set_z_coordinate_of_line` (`CMRPCalculations.py`):
projects a line onto the plane at elevation `newZ` by rebuilding it from
its endpoints with replaced Z coordinates. -/
def set_z_coordinate_of_line (lenF : XYZ → XYZ → ℚ) (c : Curve) (newZ : ℚ) : Curve :=
  createBound lenF ⟨c.s.x, c.s.y, newZ⟩ ⟨c.e.x, c.e.y, newZ⟩

/-- Translation of `calculate_surface_area_of_boundary` (`CMRP.py`):
sums `curve.Length * curve.GetEndParameter(0) * curve.GetEndParameter(1)`
over the bound curves of the loop and returns half the absolute value. -/
def calculate_surface_area_of_boundary (boundary : List Curve) : ℚ :=
  |boundary.foldl
      (fun acc c => acc + (if c.isBound then c.length * c.endParam0 * c.endParam1 else 0))
      0| / 2

/-- Revit `BoundarySegment`: the code only ever calls `GetCurve()` on it. -/
structure BoundarySegment where
  curve : Curve
deriving DecidableEq, Repr

/-- Translation of `get_largest_curveloop_from_room_boundary`
(`CMRP_Daylight.py`).  With exactly one loop its curves are returned
unchanged.  With several loops the code intends to keep the loop with the
largest computed surface area, but the running maximum `largest_area` is
never updated after a comparison succeeds (the fold state keeps `acc.2`
unchanged below, mirroring the source), so every loop with positive
computed area overwrites the candidate. -/
def get_largest_curveloop_from_room_boundary
    (room_boundary_segments : List (List BoundarySegment)) : Option (List Curve) :=
  match room_boundary_segments with
  | [only] => some (only.map BoundarySegment.curve)
  | segs =>
    (segs.foldl
      (fun acc segments =>
        let temp := segments.map BoundarySegment.curve
        let surface_area := calculate_surface_area_of_boundary temp
        if surface_area > acc.2 then (some temp, acc.2) else acc)
      ((none : Option (List Curve)), (0 : ℚ))).1

/-- Scan test for one index pair inside
`remove_single_imperfection_from_boundary` (`CMRP.py`): the pair of the
first and the last curve is skipped, every other pair is intersected. -/
def defect_at (b : List Curve) (ij : Nat × Nat) : Option (Nat × Nat × XYZ) :=
  if ij.1 = 0 ∧ ij.2 = b.length - 1 then none
  else
    match b.get? ij.1, b.get? ij.2 with
    | some ci, some cj => (curve_intersect ci cj).map (fun P => (ij.1, ij.2, P))
    | _, _ => none

/-- Index pairs in the scan order of the two nested `for` loops of
`remove_single_imperfection_from_boundary`: `current_index` ascending,
`intersect_index` ascending over `range(current_index + 2, n)`. -/
def scan_pairs (n : Nat) : List (Nat × Nat) :=
  (List.range n).flatMap (fun i => ((List.range n).drop (i + 2)).map (fun j => (i, j)))

/-- First intersecting non-adjacent curve pair found by the scan of
`remove_single_imperfection_from_boundary`, with its intersection point. -/
def find_first_intersection (b : List Curve) : Option (Nat × Nat × XYZ) :=
  (scan_pairs b.length).findSome? (defect_at b)

/-- Rotation used by the `current_index == 0` special case of
`remove_single_imperfection_from_boundary`:
`room_boundary[1:] + [room_boundary[0]]`. -/
def rotate_boundary (b : List Curve) : List Curve := b.drop 1 ++ b.take 1

/-- In-place repair step of `remove_single_imperfection_from_boundary` for
a defect at pair `(i, j)` with intersection point `P`.  Situation 1 keeps
the outer part (curves before `i` and after `j`, with curves `i` and `j`
shortened to `P`); situation 2 keeps the inner sub-loop between them.  The
`try`/`except RevitExceptions.ArgumentsInconsistentException` around the
construction of situation 2 is modelled by the degeneracy test on the two
new lines (Revit `Line.CreateBound` rejects zero-length lines): when it
fires, situation 1 is returned unconditionally.  Otherwise the situation
with the larger computed surface area wins, situation 2 on ties.  (A
degenerate line in situation 1 itself would escape the `except` clause and
abort the whole Python script; no claim depends on that path and the
model builds the degenerate record instead.) -/
def repair_defect_in_place (lenF : XYZ → XYZ → ℚ) (b : List Curve)
    (i j : Nat) (P : XYZ) : List Curve :=
  let ci := b.getD i default
  let cj := b.getD j default
  let boundary_situation_1 :=
    b.take i ++ [createBound lenF ci.s P, createBound lenF P cj.e] ++ b.drop (j + 1)
  if cj.s = P ∨ P = ci.e then boundary_situation_1
  else
    let boundary_situation_2 :=
      (b.drop (i + 1)).take (j - (i + 1)) ++
        [createBound lenF cj.s P, createBound lenF P ci.e]
    if calculate_surface_area_of_boundary boundary_situation_1 >
        calculate_surface_area_of_boundary boundary_situation_2 then
      boundary_situation_1
    else boundary_situation_2

/-- Translation of `remove_single_imperfection_from_boundary` (`CMRP.py`).
`fuel` counts the rotations still allowed: the Python parameter
`nr_of_recursive` starts at `0` and the guard is `nr_of_recursive < 4`, so
`fuel = 4 - nr_of_recursive` and the top-level call uses `fuel = 4`.  If
the scan finds no intersection the boundary is returned unchanged.  If the
first intersection involves curve `0` and rotations remain, the boundary
is rotated and the scan restarts; otherwise the defect is repaired in
place. -/
def remove_single_imperfection_from_boundary (lenF : XYZ → XYZ → ℚ) :
    Nat → List Curve → List Curve
  | 0, b =>
    match find_first_intersection b with
    | none => b
    | some (i, j, P) => repair_defect_in_place lenF b i j P
  | fuel + 1, b =>
    match find_first_intersection b with
    | none => b
    | some (i, j, P) =>
      if i = 0 then
        remove_single_imperfection_from_boundary lenF fuel (rotate_boundary b)
      else repair_defect_in_place lenF b i j P

/-- Number of rotations performed by
`remove_single_imperfection_from_boundary` on the same input: it mirrors
the recursion of that function (a rotation happens exactly when the first
intersection found involves curve `0` and `fuel` is not exhausted). -/
def rotation_count : Nat → List Curve → Nat
  | 0, _ => 0
  | fuel + 1, b =>
    match find_first_intersection b with
    | some (0, _, _) => rotation_count fuel (rotate_boundary b) + 1
    | _ => 0

/-- Iteration loop of `remove_imperfections_from_boundary` (`CMRP.py`)
with the remaining iteration count explicit. -/
def remove_imperfections_loop (lenF : XYZ → XYZ → ℚ) :
    Nat → List Curve → List Curve
  | 0, b => b
  | k + 1, b =>
    let new_room_boundary := remove_single_imperfection_from_boundary lenF 4 b
    if new_room_boundary.length = b.length then new_room_boundary
    else remove_imperfections_loop lenF k new_room_boundary

/-- Translation of `remove_imperfections_from_boundary` (`CMRP.py`) with
its default iteration cap `max_iterations = 10`: repeatedly remove single
imperfections, stopping early as soon as an iteration leaves the curve
count unchanged; after 10 iterations the last boundary is returned even if
defects remain. -/
def remove_imperfections_from_boundary (lenF : XYZ → XYZ → ℚ)
    (room_boundary : List Curve) : List Curve :=
  remove_imperfections_loop lenF 10 room_boundary

/-- Revit window element as read by the daylight code: its location point
(`window.Location.Point`), its `FacingOrientation` vector, and parameter
lookup on the instance (`window.LookupParameter`) and on its type
(`window.Symbol.LookupParameter`), both returning the `AsDouble` value of
the parameter when it exists. -/
structure Window where
  location : XYZ
  facing_orientation : XYZ
  lookup : String → Option ℚ
  symbol_lookup : String → Option ℚ

/-- Test ray of `get_correct_facing_orientation` (`CMRP_Daylight.py`)
along the facing orientation: `Line.CreateBound(location, location +
facing * units_to_internal(1000))` flattened to `Z = 0`.  The host unit
conversion `units_to_internal` is threaded as the parameter `u2i`. -/
def facing_ray (lenF : XYZ → XYZ → ℚ) (u2i : ℚ → ℚ) (location facing : XYZ) : Curve :=
  set_z_coordinate_of_line lenF
    (createBound lenF location (location + XYZ.scale (u2i 1000) facing)) 0

/-- Test ray of `get_correct_facing_orientation` along the reverse
orientation `XYZ(-facing.X, -facing.Y, -facing.Z)`, flattened to `Z = 0`. -/
def reverse_ray (lenF : XYZ → XYZ → ℚ) (u2i : ℚ → ℚ) (location facing : XYZ) : Curve :=
  set_z_coordinate_of_line lenF
    (createBound lenF location (location + XYZ.scale (u2i 1000) (-facing))) 0

/-- Scan loop of `get_correct_facing_orientation`: for each boundary curve
in order, the flattened curve is intersected with the reverse line first
and with the facing line second; the first hit returns the corresponding
direction together with the intersection point, whose Z coordinate is
taken from the boundary curve (`curve.GetEndPoint(0).Z`), not from the
ray. -/
def orientation_scan (lenF : XYZ → XYZ → ℚ) (facing reverse : XYZ)
    (facing_line reverse_line : Curve) : List Curve → Option (XYZ × XYZ)
  | [] => none
  | c :: rest =>
    match curve_intersect (set_z_coordinate_of_line lenF c 0) reverse_line with
    | some r => some (reverse, ⟨r.x, r.y, c.s.z⟩)
    | none =>
      match curve_intersect (set_z_coordinate_of_line lenF c 0) facing_line with
      | some r => some (facing, ⟨r.x, r.y, c.s.z⟩)
      | none => orientation_scan lenF facing reverse facing_line reverse_line rest

/-- Translation of `get_correct_facing_orientation` (`CMRP_Daylight.py`).
The `(None, None)` sentinel of the source is modelled as `none`; a found
orientation is `some (direction, intersection point)`. -/
def get_correct_facing_orientation (lenF : XYZ → XYZ → ℚ) (u2i : ℚ → ℚ)
    (window : Window) (room_boundary : List Curve) : Option (XYZ × XYZ) :=
  orientation_scan lenF window.facing_orientation (-window.facing_orientation)
    (facing_ray lenF u2i window.location window.facing_orientation)
    (reverse_ray lenF u2i window.location window.facing_orientation)
    room_boundary

/-- Parameter resolution chain of `get_size_from_window` (`CMRP.py`): the
instance parameter is looked up first, the type parameter is the
fallback. -/
def resolve_window_param (w : Window) (param : String) : Option ℚ :=
  match w.lookup param with
  | some v => some v
  | none => w.symbol_lookup param

/-- Translation of `get_size_from_window` (`CMRP.py`): resolve the height
and width parameters (instance first, then type); if either parameter
object is absent the `AttributeError` handler yields `(None, None)`,
modelled as `none`; if either value is zero the function logs an error and
yields `(None, None)` as well; otherwise `(height, width)`. -/
def get_size_from_window (w : Window) (param_window_height param_window_width : String) :
    Option (ℚ × ℚ) :=
  match resolve_window_param w param_window_height,
        resolve_window_param w param_window_width with
  | some height, some width =>
    if height = 0 ∨ width = 0 then none else some (height, width)
  | _, _ => none

/-- Host transcendental functions used by the zone constructor: `acos` and
`pi` enter through the angle formula of `calculate_full_daylight_zone`,
`cos` and `sin` through the host rotation `Transform.CreateRotation`.
Every theorem below holds for every host implementation. -/
structure HostMath where
  acos : ℚ → ℚ
  pi : ℚ
  cos : ℚ → ℚ
  sin : ℚ → ℚ

/-- Translation of `rotate_z` (`CMRPCalculations.py`): rotation of a point
about the Z axis through the host transform
`Transform.CreateRotation(XYZ.BasisZ, angle)`. -/
def rotate_z (H : HostMath) (p : XYZ) (angle : ℚ) : XYZ :=
  ⟨p.x * H.cos angle - p.y * H.sin angle,
   p.x * H.sin angle + p.y * H.cos angle,
   p.z⟩

/-- Model of Python `math.copysign(1.0, q)` as used in the angle formula:
`1` with the sign of `q` (the rational model has no negative zero, so
`q = 0` yields `1` like positive floating-point zero). -/
def copysign_one (q : ℚ) : ℚ := if q < 0 then -1 else 1

/-- Translation of `calculate_full_daylight_zone` (`CMRP_Daylight.py`):
reject windows without a usable size, build the trapezoid
`(-w/2, 0), (w/2, 0), (h + w/2, -h), (-h - w/2, -h)` at the origin,
rotate each vertex about Z by
`angle = -copysign(1, facing.x) * acos(facing.y) + pi`, translate by
`new_location = (intersection.x, intersection.y, location.z)`, and return
the four boundary lines. -/
def calculate_full_daylight_zone (H : HostMath) (lenF : XYZ → XYZ → ℚ)
    (window : Window) (facing_orientation intersection_point : XYZ)
    (param_window_height param_window_width : String) : Option (List Curve) :=
  match get_size_from_window window param_window_height param_window_width with
  | none => none
  | some (height, width) =>
    let location := window.location
    let angle := -(copysign_one facing_orientation.x) * H.acos facing_orientation.y + H.pi
    let p1 : XYZ := ⟨-(width / 2), 0, 0⟩
    let p2 : XYZ := ⟨width / 2, 0, 0⟩
    let p3 : XYZ := ⟨height + width / 2, -height, 0⟩
    let p4 : XYZ := ⟨-height - width / 2, -height, 0⟩
    let new_location : XYZ := ⟨intersection_point.x, intersection_point.y, location.z⟩
    let q1 := rotate_z H p1 angle + new_location
    let q2 := rotate_z H p2 angle + new_location
    let q3 := rotate_z H p3 angle + new_location
    let q4 := rotate_z H p4 angle + new_location
    some [createBound lenF q1 q2, createBound lenF q2 q3,
          createBound lenF q3 q4, createBound lenF q4 q1]

/-- Settings record (`CMRPSettings.py`).  String-valued fields are
`Option String` (`none` models Python `None`); the selected window
families dictionary is an association list. -/
structure Settings where
  project_name : Option String
  project_address : Option String
  architect_name : Option String
  model_levels_grids : Option String
  model_rooms_windows : Option String
  model_shafts : Option String
  param_window_height : Option String
  param_window_width : Option String
  selected_window_families : Option (List (String × List String))
  mapping_file : Option String

/-- Field identifying which check of `check_necessary_settings`
(`CMRP_Daylight.py`) raised `MissingSettingsError`.  The fourth branch
guards `param_window_width`, although (faithfully to the source) its
emptiness test and its message both refer to the height parameter. -/
inductive MissingSettingsError where
  | modelLevelsGrids : MissingSettingsError
  | modelRoomsWindows : MissingSettingsError
  | paramWindowHeight : MissingSettingsError
  | paramWindowWidth : MissingSettingsError
  | selectedWindowFamilies : MissingSettingsError
deriving DecidableEq, Repr

/-- Translation of `check_necessary_settings` (`CMRP_Daylight.py`).  Each
branch raises `MissingSettingsError` when the field is `None` or the empty
string — except the fourth branch, which (as in the source) tests
`settings.param_window_width is None or settings.param_window_height == ""`,
so an empty (non-`None`) width parameter passes the check. -/
def check_necessary_settings (s : Settings) : Option MissingSettingsError :=
  if s.model_levels_grids = none ∨ s.model_levels_grids = some "" then
    some MissingSettingsError.modelLevelsGrids
  else if s.model_rooms_windows = none ∨ s.model_rooms_windows = some "" then
    some MissingSettingsError.modelRoomsWindows
  else if s.param_window_height = none ∨ s.param_window_height = some "" then
    some MissingSettingsError.paramWindowHeight
  else if s.param_window_width = none ∨ s.param_window_height = some "" then
    some MissingSettingsError.paramWindowWidth
  else if s.selected_window_families = none ∨
      (s.selected_window_families.getD []).length = 0 then
    some MissingSettingsError.selectedWindowFamilies
  else none

/-- Trace actions of `run_daylight_script` (`CMRP_Daylight.py`), with host
operations abstracted to events: the destructive `delete_area_plans` call
and the subsequent compute-and-write phase, or the critical log emitted by
the `except (MissingSettingsError, MissingTemplateError)` handler. -/
inductive ScriptAction where
  | log_critical : ScriptAction
  | delete_area_plans : ScriptAction
  | compute_and_write : ScriptAction
deriving DecidableEq, Repr

/-- Control-flow skeleton of `run_daylight_script` (`CMRP_Daylight.py`) as
a trace of abstract actions: `check_necessary_settings` runs first; a
raised `MissingSettingsError` is caught at the top of the entry point and
only logged, so nothing is deleted or written; otherwise the script
deletes the previously created output and proceeds to compute and write. -/
def run_daylight_script (s : Settings) : List ScriptAction :=
  match check_necessary_settings s with
  | some _ => [ScriptAction.log_critical]
  | none => [ScriptAction.delete_area_plans, ScriptAction.compute_and_write]

/-- Host solid as consumed by `expand_boundary` (`CMRP_Shafts.py`): the
code only reads its `Volume` attribute. -/
structure Solid where
  volume : ℚ
deriving DecidableEq, Repr

/-- Host collaborators of the shaft offset engine: `XYZ.Normalize` (which
returns the zero vector for the zero vector, and otherwise divides by the
irrational euclidean length) and
`GeometryCreationUtilities.CreateExtrusionGeometry` along `(0,0,1)`,
returning `none` when the host rejects the loop (self-intersecting or
otherwise degenerate geometry raises, and the bare `except` swallows it).
Every theorem below holds for every host implementation of both. -/
structure ShaftHost where
  normalize : XYZ → XYZ
  extrude : List Curve → ℚ → Option Solid

/-- Per-curve offset vectors of `expand_boundary` (`CMRP_Shafts.py`), step
0: `direction = (start - end).Normalize()`,
`offset_vector = direction.CrossProduct(XYZ.BasisZ) * offset_distance`. -/
def expansion_vectors (SH : ShaftHost) (curve_loop : List Curve)
    (offset_distance : ℚ) : List XYZ :=
  curve_loop.map (fun c =>
    XYZ.scale offset_distance (XYZ.crossBasisZ (SH.normalize (c.s - c.e))))

/-- Mirrored per-curve offset vectors of `expand_boundary`: the same cross
product applied to the reverse direction `(end - start).Normalize()`. -/
def reverse_expansion_vectors (SH : ShaftHost) (curve_loop : List Curve)
    (offset_distance : ℚ) : List XYZ :=
  curve_loop.map (fun c =>
    XYZ.scale offset_distance (XYZ.crossBasisZ (SH.normalize (c.e - c.s))))

/-- Offset loop construction of `expand_boundary`, step 1: curve `index`
is rebuilt between
`start + vectors[index] + vectors[(index - 1) % n]` and
`end + vectors[index] + vectors[(index + 1) % n]`. -/
def offset_curve_loop (lenF : XYZ → XYZ → ℚ) (curve_loop : List Curve)
    (vectors : List XYZ) : List Curve :=
  let n := vectors.length
  (List.range curve_loop.length).map (fun index =>
    let c := curve_loop.getD index default
    createBound lenF
      (c.s + vectors.getD index default + vectors.getD ((index + n - 1) % n) default)
      (c.e + vectors.getD index default + vectors.getD ((index + 1) % n) default))

/-- Candidate loop of `expand_boundary` offset in the `vectors`
direction. -/
def expanded_loop (SH : ShaftHost) (lenF : XYZ → XYZ → ℚ)
    (curve_loop : List Curve) (offset_distance : ℚ) : List Curve :=
  offset_curve_loop lenF curve_loop (expansion_vectors SH curve_loop offset_distance)

/-- Candidate loop of `expand_boundary` offset in the mirrored
direction. -/
def reverse_expanded_loop (SH : ShaftHost) (lenF : XYZ → XYZ → ℚ)
    (curve_loop : List Curve) (offset_distance : ℚ) : List Curve :=
  offset_curve_loop lenF curve_loop (reverse_expansion_vectors SH curve_loop offset_distance)

/-- Degeneracy of a candidate loop: some rebuilt line has coincident
endpoints, which makes the host `Line.CreateBound` raise inside the `try`
block of `expand_boundary`, leaving that candidate solid `None`. -/
def degenerate_loop (l : List Curve) : Bool :=
  l.any (fun c => c.s = c.e)

/-- Candidate solid of `expand_boundary` in the `vectors` direction:
`None` when the loop construction or the extrusion fails inside the first
`try` block. -/
def expanded_solid_of (SH : ShaftHost) (lenF : XYZ → XYZ → ℚ)
    (curve_loop : List Curve) (offset_distance shaft_height : ℚ) : Option Solid :=
  let el := expanded_loop SH lenF curve_loop offset_distance
  if degenerate_loop el then none else SH.extrude el shaft_height

/-- Candidate solid of `expand_boundary` in the mirrored direction. -/
def reverse_expanded_solid_of (SH : ShaftHost) (lenF : XYZ → XYZ → ℚ)
    (curve_loop : List Curve) (offset_distance shaft_height : ℚ) : Option Solid :=
  let rl := reverse_expanded_loop SH lenF curve_loop offset_distance
  if degenerate_loop rl then none else SH.extrude rl shaft_height

/-- Translation of `expand_boundary` (`CMRP_Shafts.py`), final selection:
if the first candidate failed, the mirrored one is returned (even when it
failed too, yielding `None` without raising); if only the mirrored one
failed, the first is returned; otherwise the candidate with the strictly
larger volume wins, the mirrored one on ties. -/
def expand_boundary (SH : ShaftHost) (lenF : XYZ → XYZ → ℚ)
    (curve_loop : List Curve) (offset_distance shaft_height : ℚ) : Option Solid :=
  let expanded_solid := expanded_solid_of SH lenF curve_loop offset_distance shaft_height
  let reverse_expanded_solid :=
    reverse_expanded_solid_of SH lenF curve_loop offset_distance shaft_height
  match expanded_solid with
  | none => reverse_expanded_solid
  | some s =>
    match reverse_expanded_solid with
    | none => some s
    | some r => if s.volume > r.volume then some s else some r

/-- Closed curve loop: each curve ends where the cyclically next curve
starts. -/
def closed_curve_loop (l : List Curve) : Prop :=
  ∀ i, i < l.length →
    (l.getD i default).e = (l.getD ((i + 1) % l.length) default).s

instance (l : List Curve) : Decidable (closed_curve_loop l) := by
  unfold closed_curve_loop
  infer_instance

/-- Shoelace area of a loop of line segments, used only to instantiate the
abstract host extrusion in witnesses (the host volume of an extrusion is
the base area times the height). -/
def shoelace_area (l : List Curve) : ℚ :=
  |l.foldl (fun acc c => acc + (c.s.x * c.e.y - c.e.x * c.s.y)) 0| / 2

/-! Concrete fixtures used by counterexamples and witnesses. -/

/-- Host length instantiation used on concrete inputs: the constant zero
function.  No computed value depends on the host length of a created
line (it is always multiplied by the zero start parameter), so any
instantiation works; zero keeps the terms small. -/
def len_zero : XYZ → XYZ → ℚ := fun _ _ => 0

/-- Plain bound line at elevation zero with zero host attributes, as the
host hands boundary curves whose underlying line parameters happen to
start at the curve origin. -/
def mk_plain_curve (ax ay bx bY : ℚ) : Curve :=
  ⟨⟨ax, ay, 0⟩, ⟨bx, bY, 0⟩, 0, 0, 0, true⟩

/-- Identity unit conversion, a host instantiation of
`units_to_internal` for a document whose display unit is the internal
unit. -/
def u2i_id : ℚ → ℚ := fun q => q

/-- One self-intersection gadget for the repair counterexample: curves
`(5k,0)→(5k+3,3)`, `(5k+3,3)→(5k+1,3)`, `(5k+1,3)→(5k+5,0)`; the first
and third cross at `(5k+15/7, 15/7)`. -/
def ear_gadget (k : Nat) : List Curve :=
  let x : ℚ := 5 * k
  [mk_plain_curve x 0 (x + 3) 3,
   mk_plain_curve (x + 3) 3 (x + 1) 3,
   mk_plain_curve (x + 1) 3 (x + 5) 0]

/-- Closed loop of 37 curves with 11 chained self-intersection gadgets
along its bottom side.  The leading curve `(-1,0)→(0,0)` carries host
parameter data (`Length = 3`, end parameters `1` and `2`), so every outer
repair candidate has computed surface area `3` while every inner sub-loop
candidate has computed area `0`; each repair therefore keeps the outer
loop and removes exactly one curve.  Ten iterations remove ten gadgets
and exhaust the iteration cap with the eleventh gadget still present. -/
def capped_repair_boundary : List Curve :=
  (⟨⟨-1, 0, 0⟩, ⟨0, 0, 0⟩, 3, 1, 2, true⟩ : Curve) ::
    ((List.range 11).flatMap ear_gadget ++
      [mk_plain_curve 55 0 55 10, mk_plain_curve 55 10 (-1) 10,
       mk_plain_curve (-1) 10 (-1) 0])

/-- Self-crossing four-curve loop whose first scanned pair `(0, 2)`
intersects at `(1,1)`: curves `(0,0)→(2,2)`, `(2,2)→(0,2)`,
`(0,2)→(2,0)`, `(2,0)→(0,0)`. -/
def bowtie_boundary : List Curve :=
  [mk_plain_curve 0 0 2 2, mk_plain_curve 2 2 0 2,
   mk_plain_curve 0 2 2 0, mk_plain_curve 2 0 0 0]

/-- Simple counterclockwise square loop with corner `(0,0)` and side 4. -/
def square_boundary : List Curve :=
  [mk_plain_curve 0 0 4 0, mk_plain_curve 4 0 4 4,
   mk_plain_curve 4 4 0 4, mk_plain_curve 0 4 0 0]

/-- Host `XYZ.Normalize` instantiation that agrees with euclidean
normalization on axis-aligned vectors (the only ones the square witness
produces) and on the zero vector. -/
def axis_unit (v : XYZ) : XYZ :=
  if 0 < v.x then ⟨1, 0, 0⟩
  else if v.x < 0 then ⟨-1, 0, 0⟩
  else if 0 < v.y then ⟨0, 1, 0⟩
  else if v.y < 0 then ⟨0, -1, 0⟩
  else ⟨0, 0, 0⟩

/-- Room boundary loop consisting of one host curve whose attribute data
gives it computed surface area `2` (`Length * p0 * p1 = 4 * 1 * 1`). -/
def loop_area_two : List BoundarySegment :=
  [⟨⟨⟨0, 0, 0⟩, ⟨1, 0, 0⟩, 4, 1, 1, true⟩⟩]

/-- Room boundary loop consisting of one host curve whose attribute data
gives it computed surface area `1` (`Length * p0 * p1 = 2 * 1 * 1`). -/
def loop_area_one : List BoundarySegment :=
  [⟨⟨⟨0, 0, 0⟩, ⟨2, 0, 0⟩, 2, 1, 1, true⟩⟩]

/-- Window at the origin facing `(0,1,0)` with no readable size
parameters, for the orientation counterexamples. -/
def plain_window : Window :=
  ⟨⟨0, 0, 0⟩, ⟨0, 1, 0⟩, fun _ => none, fun _ => none⟩

/-- Boundary curve at elevation 5 crossing only the forward test ray of
`plain_window`. -/
def forward_hit_curve : Curve := ⟨⟨-1, 1, 5⟩, ⟨1, 1, 5⟩, 0, 0, 0, true⟩

/-- Boundary curve at elevation 2 crossing only the reverse test ray of
`plain_window`. -/
def reverse_hit_curve : Curve := ⟨⟨-1, -1, 2⟩, ⟨1, -1, 2⟩, 0, 0, 0, true⟩

/-- Boundary curve far away from both test rays of `plain_window`. -/
def far_curve : Curve := ⟨⟨100, 5, 0⟩, ⟨101, 5, 0⟩, 0, 0, 0, true⟩

/-- Settings record whose only defect is an empty (non-`None`) window
width parameter name. -/
def empty_width_settings : Settings :=
  ⟨some "p", some "addr", some "arch", some "lg", some "rw", some "sh",
   some "H", some "", some [("fam", ["type"])], some "map"⟩

/-- Window with readable height parameter `0` and width parameter `2`,
for the zero-size rejection witness. -/
def zero_height_window : Window :=
  ⟨⟨0, 0, 0⟩, ⟨0, -1, 0⟩,
   fun p => if p = "h" then some 0 else if p = "w" then some 2 else none,
   fun _ => none⟩

/-- Window at `(0,0,9)` with readable height parameter `1` and width
parameter `2`, for the zone construction witness. -/
def sized_window : Window :=
  ⟨⟨0, 0, 9⟩, ⟨0, -1, 0⟩,
   fun p => if p = "h" then some 1 else if p = "w" then some 2 else none,
   fun _ => none⟩

/-- Host transcendental instantiation whose rotation is the identity
(`cos = 1`, `sin = 0`), used to evaluate the zone constructor
witnesses. -/
def identity_rotation_host : HostMath :=
  ⟨fun _ => 7, 5, fun _ => 1, fun _ => 0⟩

/-! Theorems.  The `Rat` arithmetic operations are `irreducible` in the
ambient library; the counterexamples and witnesses below evaluate the
embedded code on concrete rational inputs, so the operations are reset to
their normal reducibility for the remainder of this development. -/

attribute [local semireducible] Rat.add Rat.sub Rat.mul Rat.inv

set_option maxRecDepth 100000

/-- Claim C1.  The loop-selection step is claimed to return the loop with
the greatest computed unsigned surface area.  The code contradicts this
(and its own docstring): `largest_area` is never updated after a
successful comparison, so the last loop with positive computed area wins.
On the input `[loop_area_two, loop_area_one]` the selector returns the
second loop although its computed area `1` is smaller than the first
loop's computed area `2`. -/
theorem largest_loop_selection_returns_last_positive_loop :
    get_largest_curveloop_from_room_boundary [loop_area_two, loop_area_one] =
      some (loop_area_one.map BoundarySegment.curve) ∧
    calculate_surface_area_of_boundary (loop_area_one.map BoundarySegment.curve) <
      calculate_surface_area_of_boundary (loop_area_two.map BoundarySegment.curve) := by
  decide

/-- Claim C3.  A `MissingSettingsError` is claimed to be raised whenever
any required settings field is `None` or empty, before the destructive
delete-old-output step.  The width check of `check_necessary_settings`
tests `param_window_height` for emptiness (a copy-paste slip whose error
message also names the height), so a settings record whose
`param_window_width` is the empty string passes the check and
`run_daylight_script` proceeds to delete the previously created output. -/
theorem empty_window_width_passes_settings_check :
    empty_width_settings.param_window_width = some "" ∧
    check_necessary_settings empty_width_settings = none ∧
    run_daylight_script empty_width_settings =
      [ScriptAction.delete_area_plans, ScriptAction.compute_and_write] := by
  decide

/-- Claim C5, counterexample.  Repair is claimed idempotent for every
input.  On `capped_repair_boundary` the ten-iteration cap of
`remove_imperfections_from_boundary` stops with one self-intersection
still present (37 curves reduced to 27), and a second application removes
it (26 curves), so the second application does not preserve the vertex
count. -/
theorem repair_not_idempotent_at_iteration_cap :
    (remove_imperfections_from_boundary len_zero capped_repair_boundary).length = 27 ∧
    (remove_imperfections_from_boundary len_zero
        (remove_imperfections_from_boundary len_zero capped_repair_boundary)).length = 26 := by
  decide

/-- Curves that intersect neither test line are skipped by the
orientation scan. -/
theorem orientation_scan_skip (lenF : XYZ → XYZ → ℚ) (f r : XYZ)
    (fl rl : Curve) (pre l : List Curve)
    (h : ∀ d ∈ pre,
      curve_intersect (set_z_coordinate_of_line lenF d 0) rl = none ∧
      curve_intersect (set_z_coordinate_of_line lenF d 0) fl = none) :
    orientation_scan lenF f r fl rl (pre ++ l) =
      orientation_scan lenF f r fl rl l := by
  induction pre with
  | nil => rfl
  | cons c cs ih =>
    have hc := h c (List.mem_cons_self c cs)
    have hcs : ∀ d ∈ cs,
        curve_intersect (set_z_coordinate_of_line lenF d 0) rl = none ∧
        curve_intersect (set_z_coordinate_of_line lenF d 0) fl = none :=
      fun d hd => h d (List.mem_cons_of_mem c hd)
    simp [orientation_scan, hc.1, hc.2, ih hcs]

/-- Claim C2, counterexample.  The claim says the reverse direction is
returned whenever the reverse ray intersects at least one boundary
segment.  On the boundary `[forward_hit_curve, reverse_hit_curve]` of
`plain_window` the reverse ray does intersect `reverse_hit_curve`, yet
the resolver returns the forward direction `(0,1,0)`, because the scan
tests both rays against `forward_hit_curve` (which only the forward ray
hits) before moving to the next segment. -/
theorem orientation_reverse_hit_not_always_returned :
    (curve_intersect (set_z_coordinate_of_line len_zero reverse_hit_curve 0)
        (reverse_ray len_zero u2i_id plain_window.location
          plain_window.facing_orientation)).isSome = true ∧
    get_correct_facing_orientation len_zero u2i_id plain_window
        [forward_hit_curve, reverse_hit_curve] =
      some (⟨0, 1, 0⟩, ⟨0, 1, 5⟩) ∧
    (⟨0, 1, 0⟩ : XYZ) ≠ -plain_window.facing_orientation := by
  decide

/-- Claim C2, amended.  The Orientation Resolver scans the boundary
segments in order and tests each segment first against the reverse ray,
then against the forward ray, returning on the first hit: if every
earlier segment misses both rays, a segment hit by the reverse ray
yields the reverse direction, and a segment missed by the reverse ray
but hit by the forward ray yields the forward direction, in both cases
with the intersection point's Z coordinate taken from the boundary
segment. -/
theorem orientation_scan_reverse_then_forward_per_segment :
    ∀ (lenF : XYZ → XYZ → ℚ) (u2i : ℚ → ℚ) (w : Window)
      (pre rest : List Curve) (c : Curve) (p : XYZ),
    (∀ d ∈ pre,
      curve_intersect (set_z_coordinate_of_line lenF d 0)
        (reverse_ray lenF u2i w.location w.facing_orientation) = none ∧
      curve_intersect (set_z_coordinate_of_line lenF d 0)
        (facing_ray lenF u2i w.location w.facing_orientation) = none) →
    (curve_intersect (set_z_coordinate_of_line lenF c 0)
        (reverse_ray lenF u2i w.location w.facing_orientation) = some p →
      get_correct_facing_orientation lenF u2i w (pre ++ c :: rest) =
        some (-w.facing_orientation, ⟨p.x, p.y, c.s.z⟩)) ∧
    (curve_intersect (set_z_coordinate_of_line lenF c 0)
        (reverse_ray lenF u2i w.location w.facing_orientation) = none →
     curve_intersect (set_z_coordinate_of_line lenF c 0)
        (facing_ray lenF u2i w.location w.facing_orientation) = some p →
      get_correct_facing_orientation lenF u2i w (pre ++ c :: rest) =
        some (w.facing_orientation, ⟨p.x, p.y, c.s.z⟩)) := by
  intro lenF u2i w pre rest c p hpre
  unfold get_correct_facing_orientation
  rw [orientation_scan_skip lenF _ _ _ _ pre _ hpre]
  constructor
  · intro hrev
    simp [orientation_scan, hrev]
  · intro hrev hfwd
    simp [orientation_scan, hrev, hfwd]

/-- Claim C2, witness: on the single-segment boundary
`[reverse_hit_curve]` the reverse ray hits at `(0,-1)` and the resolver
returns the reverse direction with the segment's elevation `2`. -/
theorem orientation_scan_reverse_then_forward_witness :
    curve_intersect (set_z_coordinate_of_line len_zero reverse_hit_curve 0)
        (reverse_ray len_zero u2i_id plain_window.location
          plain_window.facing_orientation) = some ⟨0, -1, 0⟩ ∧
    get_correct_facing_orientation len_zero u2i_id plain_window
        [reverse_hit_curve] =
      some (-plain_window.facing_orientation, ⟨0, -1, 2⟩) :=
  ⟨by decide,
    (orientation_scan_reverse_then_forward_per_segment len_zero u2i_id
      plain_window [] [] reverse_hit_curve ⟨0, -1, 0⟩ (by simp)).1 (by decide)⟩

/-- Claim C9.  If neither the reverse nor the forward flattened test ray
intersects any segment of the boundary, the Orientation Resolver returns
the sentinel (modelled as `none`), never a default direction. -/
theorem orientation_resolver_returns_sentinel :
    ∀ (lenF : XYZ → XYZ → ℚ) (u2i : ℚ → ℚ) (w : Window)
      (room_boundary : List Curve),
    (∀ c ∈ room_boundary,
      curve_intersect (set_z_coordinate_of_line lenF c 0)
        (reverse_ray lenF u2i w.location w.facing_orientation) = none ∧
      curve_intersect (set_z_coordinate_of_line lenF c 0)
        (facing_ray lenF u2i w.location w.facing_orientation) = none) →
    get_correct_facing_orientation lenF u2i w room_boundary = none := by
  intro lenF u2i w rb h
  unfold get_correct_facing_orientation
  have hs := orientation_scan_skip lenF w.facing_orientation
    (-w.facing_orientation)
    (facing_ray lenF u2i w.location w.facing_orientation)
    (reverse_ray lenF u2i w.location w.facing_orientation) rb [] h
  simpa using hs

/-- Claim C9, witness: a boundary whose only segment lies far from both
test rays of `plain_window` yields the sentinel. -/
theorem orientation_resolver_sentinel_witness :
    (∀ c ∈ [far_curve],
      curve_intersect (set_z_coordinate_of_line len_zero c 0)
        (reverse_ray len_zero u2i_id plain_window.location
          plain_window.facing_orientation) = none ∧
      curve_intersect (set_z_coordinate_of_line len_zero c 0)
        (facing_ray len_zero u2i_id plain_window.location
          plain_window.facing_orientation) = none) ∧
    get_correct_facing_orientation len_zero u2i_id plain_window [far_curve] = none :=
  ⟨by decide,
    orientation_resolver_returns_sentinel len_zero u2i_id plain_window
      [far_curve] (by decide)⟩

/-- Claim C5, amended.  For every boundary on which the repair iteration
actually converges — the result of `remove_imperfections_from_boundary`
admits no further change by a defect-removal pass, which the iteration
cap can prevent — a second application of repair returns the same loop
(hence the same curve count and the same area); in particular a boundary
in which the scan finds no intersection at all is a fixed point of
repair. -/
theorem repair_idempotent_of_converged :
    (∀ (lenF : XYZ → XYZ → ℚ) (b : List Curve),
      remove_single_imperfection_from_boundary lenF 4
          (remove_imperfections_from_boundary lenF b) =
        remove_imperfections_from_boundary lenF b →
      remove_imperfections_from_boundary lenF
          (remove_imperfections_from_boundary lenF b) =
        remove_imperfections_from_boundary lenF b) ∧
    (∀ (lenF : XYZ → XYZ → ℚ) (b : List Curve),
      find_first_intersection b = none →
      remove_imperfections_from_boundary lenF b = b) := by
  constructor
  · intro lenF b h
    show remove_imperfections_loop lenF 10 _ = _
    rw [show (10 : Nat) = 9 + 1 from rfl]
    simp only [remove_imperfections_loop, h, if_pos]
  · intro lenF b h
    have h4 : remove_single_imperfection_from_boundary lenF 4 b = b := by
      rw [show (4 : Nat) = 3 + 1 from rfl]
      simp only [remove_single_imperfection_from_boundary, h]
    show remove_imperfections_loop lenF 10 b = b
    rw [show (10 : Nat) = 9 + 1 from rfl]
    simp only [remove_imperfections_loop, h4, if_pos]

/-- Claim C5, witness: the simple `square_boundary` has no scannable
intersection, is a fixed point of repair, and repair on it is
idempotent. -/
theorem repair_idempotent_witness :
    find_first_intersection square_boundary = none ∧
    remove_imperfections_from_boundary len_zero square_boundary = square_boundary ∧
    remove_single_imperfection_from_boundary len_zero 4
        (remove_imperfections_from_boundary len_zero square_boundary) =
      remove_imperfections_from_boundary len_zero square_boundary ∧
    remove_imperfections_from_boundary len_zero
        (remove_imperfections_from_boundary len_zero square_boundary) =
      remove_imperfections_from_boundary len_zero square_boundary :=
  ⟨by decide,
   repair_idempotent_of_converged.2 len_zero square_boundary (by decide),
   by decide,
   repair_idempotent_of_converged.1 len_zero square_boundary (by decide)⟩

/-- Count of rotations performed is bounded by the remaining fuel. -/
theorem rotation_count_le_fuel :
    ∀ (fuel : Nat) (b : List Curve), rotation_count fuel b ≤ fuel := by
  intro fuel
  induction fuel with
  | zero => intro b; simp [rotation_count]
  | succ f ih =>
    intro b
    show rotation_count (f + 1) b ≤ f + 1
    unfold rotation_count
    cases h : find_first_intersection b with
    | none => exact Nat.zero_le _
    | some v =>
      obtain ⟨i, j, P⟩ := v
      cases i with
      | zero => exact Nat.succ_le_succ (ih _)
      | succ n => exact Nat.zero_le _

/-- Claim C7.  Whenever the first intersection found by the scan involves
the very first curve and rotations remain (`nr_of_recursive < 4`, that
is, positive fuel), `remove_single_imperfection_from_boundary` rotates
the loop and restarts the scan instead of repairing in place; and the
number of rotations in one defect-removal call (which starts with fuel 4)
never exceeds 4, so together with the fuel recursion the call always
terminates. -/
theorem repair_rotation_policy :
    (∀ (lenF : XYZ → XYZ → ℚ) (b : List Curve) (j : Nat) (P : XYZ) (fuel : Nat),
      find_first_intersection b = some (0, j, P) →
      remove_single_imperfection_from_boundary lenF (fuel + 1) b =
        remove_single_imperfection_from_boundary lenF fuel (rotate_boundary b)) ∧
    (∀ b : List Curve, rotation_count 4 b ≤ 4) := by
  constructor
  · intro lenF b j P fuel h
    simp only [remove_single_imperfection_from_boundary, h, if_pos]
  · intro b
    exact rotation_count_le_fuel 4 b

/-- Claim C7, witness: the first intersection of `bowtie_boundary` is
between curves 0 and 2 at `(1,1)`, so the call with fresh fuel rotates
and restarts, and its rotation count is within the bound. -/
theorem repair_rotation_policy_witness :
    find_first_intersection bowtie_boundary = some (0, 2, ⟨1, 1, 0⟩) ∧
    remove_single_imperfection_from_boundary len_zero 4 bowtie_boundary =
      remove_single_imperfection_from_boundary len_zero 3
        (rotate_boundary bowtie_boundary) ∧
    rotation_count 4 bowtie_boundary ≤ 4 :=
  ⟨by decide,
   repair_rotation_policy.1 len_zero bowtie_boundary 2 ⟨1, 1, 0⟩ 3 (by decide),
   repair_rotation_policy.2 bowtie_boundary⟩

/-- Claim C8.  A window whose height or width parameter resolves to zero
produces no daylight zone: `calculate_full_daylight_zone` returns `none`,
never a degenerate zero-area polygon. -/
theorem zero_size_window_produces_no_zone :
    ∀ (H : HostMath) (lenF : XYZ → XYZ → ℚ) (w : Window)
      (facing_orientation intersection_point : XYZ)
      (param_window_height param_window_width : String) (h wd : ℚ),
    resolve_window_param w param_window_height = some h →
    resolve_window_param w param_window_width = some wd →
    h = 0 ∨ wd = 0 →
    calculate_full_daylight_zone H lenF w facing_orientation intersection_point
      param_window_height param_window_width = none := by
  intro H lenF w facing ipt ph pw h wd hh hw hzero
  unfold calculate_full_daylight_zone get_size_from_window
  rw [hh, hw]
  simp [hzero]

/-- Claim C8, witness: `zero_height_window` resolves height `0` and
width `2`, and the zone constructor yields no zone. -/
theorem zero_size_window_witness :
    resolve_window_param zero_height_window "h" = some 0 ∧
    resolve_window_param zero_height_window "w" = some 2 ∧
    calculate_full_daylight_zone identity_rotation_host len_zero
      zero_height_window ⟨0, -1, 0⟩ ⟨3, 4, 8⟩ "h" "w" = none :=
  ⟨by decide, by decide,
   zero_size_window_produces_no_zone identity_rotation_host len_zero
     zero_height_window ⟨0, -1, 0⟩ ⟨3, 4, 8⟩ "h" "w" 0 2 (by decide) (by decide)
     (Or.inl rfl)⟩

/-- Claim C6.  For a window with nonzero resolved height and width and a
resolved orientation, the Zone Constructor returns the trapezoid with
near-edge vertices `(-w/2, 0)` and `(w/2, 0)` and far-edge vertices
`(h + w/2, -h)` and `(-h - w/2, -h)` (near edge of half-width `w/2`, far
edge at distance `h` with half-width `h + w/2`), every vertex rotated
about the Z axis by `angle = -copysign(1, facing.x) * acos(facing.y) + pi`
and then translated to the resolved anchor point
`(intersection.x, intersection.y, location.z)`. -/
theorem daylight_zone_trapezoid_construction :
    ∀ (H : HostMath) (lenF : XYZ → XYZ → ℚ) (w : Window)
      (facing_orientation intersection_point : XYZ)
      (param_window_height param_window_width : String) (h wd : ℚ),
    resolve_window_param w param_window_height = some h →
    resolve_window_param w param_window_width = some wd →
    h ≠ 0 → wd ≠ 0 →
    calculate_full_daylight_zone H lenF w facing_orientation intersection_point
        param_window_height param_window_width =
      some (
        let angle :=
          -(copysign_one facing_orientation.x) * H.acos facing_orientation.y + H.pi
        let L : XYZ := ⟨intersection_point.x, intersection_point.y, w.location.z⟩
        let q1 := rotate_z H ⟨-(wd / 2), 0, 0⟩ angle + L
        let q2 := rotate_z H ⟨wd / 2, 0, 0⟩ angle + L
        let q3 := rotate_z H ⟨h + wd / 2, -h, 0⟩ angle + L
        let q4 := rotate_z H ⟨-h - wd / 2, -h, 0⟩ angle + L
        [createBound lenF q1 q2, createBound lenF q2 q3,
         createBound lenF q3 q4, createBound lenF q4 q1]) := by
  intro H lenF w facing ipt ph pw h wd hh hw hh0 hw0
  unfold calculate_full_daylight_zone get_size_from_window
  rw [hh, hw]
  have hcond : ¬(h = 0 ∨ wd = 0) := by
    intro hc
    cases hc with
    | inl hc => exact hh0 hc
    | inr hc => exact hw0 hc
  simp [hcond]

/-- Claim C6, witness: `sized_window` (height 1, width 2) under the
identity-rotation host, facing `(0,-1,0)`, with resolved intersection
point `(3,4,8)`: the trapezoid is translated to `(3,4,9)` and has the
expected four corners. -/
theorem daylight_zone_trapezoid_witness :
    resolve_window_param sized_window "h" = some 1 ∧
    resolve_window_param sized_window "w" = some 2 ∧
    calculate_full_daylight_zone identity_rotation_host len_zero sized_window
        ⟨0, -1, 0⟩ ⟨3, 4, 8⟩ "h" "w" =
      some [createBound len_zero ⟨2, 4, 9⟩ ⟨4, 4, 9⟩,
            createBound len_zero ⟨4, 4, 9⟩ ⟨5, 3, 9⟩,
            createBound len_zero ⟨5, 3, 9⟩ ⟨1, 3, 9⟩,
            createBound len_zero ⟨1, 3, 9⟩ ⟨2, 4, 9⟩] :=
  ⟨by decide, by decide, by
    have hz := daylight_zone_trapezoid_construction identity_rotation_host
      len_zero sized_window ⟨0, -1, 0⟩ ⟨3, 4, 8⟩ "h" "w" 1 2 (by decide)
      (by decide) (by decide) (by decide)
    rw [hz]
    decide⟩

/-- Vector addition on `XYZ` commutes in the last two summands. -/
theorem xyz_add_right_comm (p a b : XYZ) : p + a + b = p + b + a := by
  show XYZ.add (XYZ.add p a) b = XYZ.add (XYZ.add p b) a
  simp [XYZ.add, add_right_comm]

/-- Cyclic predecessor of the cyclic successor of `i` is `i` again. -/
theorem mod_cycle_index (i n : Nat) (hi : i < n) :
    ((i + 1) % n + n - 1) % n = i := by
  rcases Nat.lt_or_ge (i + 1) n with h1 | h1
  · rw [Nat.mod_eq_of_lt h1]
    have he : i + 1 + n - 1 = i + n := by omega
    rw [he, Nat.add_mod_right, Nat.mod_eq_of_lt hi]
  · have hn : i + 1 = n := by omega
    rw [hn, Nat.mod_self]
    have h0 : 0 + n - 1 = n - 1 := by omega
    rw [h0, Nat.mod_eq_of_lt (by omega)]
    omega

/-- Entry `i` of an offset loop, unfolded. -/
theorem offset_curve_loop_getD (lenF : XYZ → XYZ → ℚ) (loop : List Curve)
    (vectors : List XYZ) (i : Nat) (hi : i < loop.length) :
    (offset_curve_loop lenF loop vectors).getD i default =
      createBound lenF
        ((loop.getD i default).s + vectors.getD i default +
          vectors.getD ((i + vectors.length - 1) % vectors.length) default)
        ((loop.getD i default).e + vectors.getD i default +
          vectors.getD ((i + 1) % vectors.length) default) := by
  unfold offset_curve_loop
  simp [List.getD_eq_getElem?_getD, List.getElem?_range hi]

/-- For a closed loop and a matching vector list, the vertex shared by
curve `i` and the cyclically next curve is displaced, consistently on
both sides, by the sum of the offset vectors of the two adjacent
curves. -/
theorem offset_vertex_displacement (lenF : XYZ → XYZ → ℚ) (loop : List Curve)
    (vectors : List XYZ) (hv : vectors.length = loop.length)
    (hcl : closed_curve_loop loop) (i : Nat) (hi : i < loop.length) :
    ((offset_curve_loop lenF loop vectors).getD i default).e =
      (loop.getD i default).e + vectors.getD i default +
        vectors.getD ((i + 1) % loop.length) default ∧
    ((offset_curve_loop lenF loop vectors).getD ((i + 1) % loop.length) default).s =
      (loop.getD i default).e + vectors.getD i default +
        vectors.getD ((i + 1) % loop.length) default := by
  have hn : 0 < loop.length := Nat.lt_of_le_of_lt (Nat.zero_le i) hi
  have hi1 : (i + 1) % loop.length < loop.length := Nat.mod_lt _ hn
  constructor
  · rw [offset_curve_loop_getD lenF loop vectors i hi, hv]
    simp [createBound]
  · rw [offset_curve_loop_getD lenF loop vectors _ hi1, hv]
    rw [mod_cycle_index i loop.length hi]
    rw [← hcl i hi]
    simp only [createBound]
    exact xyz_add_right_comm _ _ _

/-- Claim C4.  In each offset candidate of the Polygon Offset Engine,
every vertex of a closed input loop is displaced by exactly the sum of
the two adjacent curves' offset vectors (normal direction for the first
candidate, mirrored for the second), consistently from both adjacent
curves; when both candidates extrude, the engine returns the candidate
solid with the strictly larger volume; when exactly one candidate fails
to build, the other is returned unconditionally. -/
theorem expand_boundary_offset_and_selection :
    (∀ (SH : ShaftHost) (lenF : XYZ → XYZ → ℚ) (loop : List Curve) (d : ℚ)
       (i : Nat), closed_curve_loop loop → i < loop.length →
      (((expanded_loop SH lenF loop d).getD i default).e =
          (loop.getD i default).e + (expansion_vectors SH loop d).getD i default +
            (expansion_vectors SH loop d).getD ((i + 1) % loop.length) default ∧
        ((expanded_loop SH lenF loop d).getD ((i + 1) % loop.length) default).s =
          (loop.getD i default).e + (expansion_vectors SH loop d).getD i default +
            (expansion_vectors SH loop d).getD ((i + 1) % loop.length) default) ∧
      (((reverse_expanded_loop SH lenF loop d).getD i default).e =
          (loop.getD i default).e +
            (reverse_expansion_vectors SH loop d).getD i default +
            (reverse_expansion_vectors SH loop d).getD ((i + 1) % loop.length) default ∧
        ((reverse_expanded_loop SH lenF loop d).getD ((i + 1) % loop.length) default).s =
          (loop.getD i default).e +
            (reverse_expansion_vectors SH loop d).getD i default +
            (reverse_expansion_vectors SH loop d).getD ((i + 1) % loop.length) default)) ∧
    (∀ (SH : ShaftHost) (lenF : XYZ → XYZ → ℚ) (loop : List Curve)
       (d h : ℚ) (s r : Solid),
      expanded_solid_of SH lenF loop d h = some s →
      reverse_expanded_solid_of SH lenF loop d h = some r →
      s.volume ≠ r.volume →
      expand_boundary SH lenF loop d h =
        some (if r.volume < s.volume then s else r)) ∧
    (∀ (SH : ShaftHost) (lenF : XYZ → XYZ → ℚ) (loop : List Curve)
       (d h : ℚ) (r : Solid),
      expanded_solid_of SH lenF loop d h = none →
      reverse_expanded_solid_of SH lenF loop d h = some r →
      expand_boundary SH lenF loop d h = some r) ∧
    (∀ (SH : ShaftHost) (lenF : XYZ → XYZ → ℚ) (loop : List Curve)
       (d h : ℚ) (s : Solid),
      expanded_solid_of SH lenF loop d h = some s →
      reverse_expanded_solid_of SH lenF loop d h = none →
      expand_boundary SH lenF loop d h = some s) := by
  refine ⟨?_, ?_, ?_, ?_⟩
  · intro SH lenF loop d i hcl hi
    have hv : (expansion_vectors SH loop d).length = loop.length := by
      simp [expansion_vectors]
    have hrv : (reverse_expansion_vectors SH loop d).length = loop.length := by
      simp [reverse_expansion_vectors]
    exact ⟨offset_vertex_displacement lenF loop _ hv hcl i hi,
           offset_vertex_displacement lenF loop _ hrv hcl i hi⟩
  · intro SH lenF loop d h s r hs hr hne
    by_cases hcmp : r.volume < s.volume
    · simp [expand_boundary, hs, hr, hcmp]
    · simp [expand_boundary, hs, hr, hcmp]
  · intro SH lenF loop d h r hs hr
    simp [expand_boundary, hs, hr]
  · intro SH lenF loop d h s hs hr
    simp [expand_boundary, hs, hr]

/-- Host instantiation for the offset witnesses: axis-aligned
normalization and an extrusion whose volume is the shoelace base area
times the height. -/
def square_host : ShaftHost :=
  ⟨axis_unit, fun l h => some ⟨shoelace_area l * h⟩⟩

/-- Host instantiation whose extrusion fails exactly on small loops (base
area at most 10), so the normal candidate of the square witness fails
while the mirrored one builds. -/
def picky_host : ShaftHost :=
  ⟨axis_unit, fun l h =>
    if shoelace_area l ≤ 10 then none else some ⟨shoelace_area l * h⟩⟩

/-- Host instantiation whose extrusion fails exactly on large loops (base
area at least 10), so the mirrored candidate of the square witness fails
while the normal one builds. -/
def picky_host_mirror : ShaftHost :=
  ⟨axis_unit, fun l h =>
    if 10 ≤ shoelace_area l then none else some ⟨shoelace_area l * h⟩⟩

/-- Claim C4, witness: on the unit-offset square, vertex 0 of both
candidates is displaced by the sum of the two adjacent offset vectors;
the normal candidate extrudes to volume 8, the mirrored one to volume 72,
and the engine returns the larger; with a host failing on exactly one
candidate, the other candidate is returned. -/
theorem expand_boundary_offset_and_selection_witness :
    closed_curve_loop square_boundary ∧
    ((expanded_loop square_host len_zero square_boundary 1).getD 0 default).e =
      (square_boundary.getD 0 default).e +
        (expansion_vectors square_host square_boundary 1).getD 0 default +
        (expansion_vectors square_host square_boundary 1).getD
          ((0 + 1) % square_boundary.length) default ∧
    expanded_solid_of square_host len_zero square_boundary 1 2 = some ⟨8⟩ ∧
    reverse_expanded_solid_of square_host len_zero square_boundary 1 2 = some ⟨72⟩ ∧
    expand_boundary square_host len_zero square_boundary 1 2 = some ⟨72⟩ ∧
    expanded_solid_of picky_host len_zero square_boundary 1 2 = none ∧
    reverse_expanded_solid_of picky_host len_zero square_boundary 1 2 = some ⟨72⟩ ∧
    expand_boundary picky_host len_zero square_boundary 1 2 = some ⟨72⟩ ∧
    expand_boundary picky_host_mirror len_zero square_boundary 1 2 = some ⟨8⟩ := by
  have hcl : closed_curve_loop square_boundary := by decide
  have hdisp := ((expand_boundary_offset_and_selection.1 square_host len_zero
    square_boundary 1 0 hcl (by decide)).1).1
  have hsel := expand_boundary_offset_and_selection.2.1 square_host len_zero
    square_boundary 1 2 ⟨8⟩ ⟨72⟩ (by decide) (by decide) (by decide)
  have hone := expand_boundary_offset_and_selection.2.2.1 picky_host len_zero
    square_boundary 1 2 ⟨72⟩ (by decide) (by decide)
  have hmir := expand_boundary_offset_and_selection.2.2.2 picky_host_mirror
    len_zero square_boundary 1 2 ⟨8⟩ (by decide) (by decide)
  refine ⟨hcl, hdisp, by decide, by decide, ?_, by decide, by decide, hone, hmir⟩
  rw [hsel]
  decide

/-- Claim C10.  When the host extrusion fails on both offset candidates,
`expand_boundary` returns `None` instead of raising: the bare `except`
blocks leave both candidate solids `None` and the final selection then
returns the (absent) mirrored candidate. -/
theorem expand_boundary_none_when_both_fail :
    ∀ (SH : ShaftHost) (lenF : XYZ → XYZ → ℚ) (loop : List Curve) (d h : ℚ),
    SH.extrude (expanded_loop SH lenF loop d) h = none →
    SH.extrude (reverse_expanded_loop SH lenF loop d) h = none →
    expand_boundary SH lenF loop d h = none := by
  intro SH lenF loop d h h1 h2
  have e1 : expanded_solid_of SH lenF loop d h = none := by
    unfold expanded_solid_of
    by_cases hdeg : degenerate_loop (expanded_loop SH lenF loop d)
    · simp [hdeg]
    · simp [hdeg, h1]
  have e2 : reverse_expanded_solid_of SH lenF loop d h = none := by
    unfold reverse_expanded_solid_of
    by_cases hdeg : degenerate_loop (reverse_expanded_loop SH lenF loop d)
    · simp [hdeg]
    · simp [hdeg, h2]
  simp [expand_boundary, e1, e2]

/-- Host instantiation whose extrusion always fails. -/
def failing_host : ShaftHost := ⟨axis_unit, fun _ _ => none⟩

/-- Claim C10, witness: with a host whose extrusion always fails, the
engine yields `none` on the square loop. -/
theorem expand_boundary_both_fail_witness :
    failing_host.extrude
        (expanded_loop failing_host len_zero square_boundary 1) 2 = none ∧
    failing_host.extrude
        (reverse_expanded_loop failing_host len_zero square_boundary 1) 2 = none ∧
    expand_boundary failing_host len_zero square_boundary 1 2 = none :=
  ⟨rfl, rfl,
    expand_boundary_none_when_both_fail failing_host len_zero square_boundary
      1 2 rfl rfl⟩

end CMRP
